import Mathlib

/-!
Shallow embedding of the `oembed` crate.

The data model (Provider, Endpoint, Response, ResponseType, Error) is
translated from `src/lib.rs`; the scheme matcher, endpoint lookup and the
fetch pipeline are translated from `src/client.rs`.  Rust strings become
Lean `String`, `Option`/`Vec` become `Option`/`List`, fallible calls
return `Except`.  The `Http` trait (an external capability supplied by
the caller) becomes a structure of two functions, parameterised by an
abstract transport-error type; `serde_json`'s text-level parser is
likewise external and the fetch pipeline is parameterised over it, while
the serde-derived (de)serialisation of `Response` — whose shape is fixed
by the derive attributes in `src/lib.rs` — is modelled explicitly at the
level of JSON values.
-/

namespace Oembed

/-- Type-specific oEmbed response data, from the `ResponseType` enum in
`src/lib.rs` (lines 133-155). -/
inductive ResponseType where
  | Photo (url : String) (width : Option Int) (height : Option Int)
  | Video (html : String) (width : Option Int) (height : Option Int)
  | Rich (html : String) (width : Option Int) (height : Option Int)
  | Link
  deriving DecidableEq

/-- Endpoint response to an oEmbed request, from the `Response` struct in
`src/lib.rs` (lines 112-126).  Rust `i32` fields are modelled as `Int`. -/
structure Response where
  response_type : ResponseType
  version : String
  title : Option String
  author_name : Option String
  author_url : Option String
  provider_name : Option String
  provider_url : Option String
  cache_age : Option String
  thumbnail_url : Option String
  thumbnail_width : Option Int
  thumbnail_height : Option Int
  deriving DecidableEq

/-- oEmbed endpoint, from the `Endpoint` struct in `src/lib.rs`. -/
structure Endpoint where
  url : String
  schemes : Option (List String)
  formats : Option (List String)
  discovery : Option Bool
  deriving DecidableEq

/-- oEmbed provider, from the `Provider` struct in `src/lib.rs`. -/
structure Provider where
  name : String
  url : String
  endpoints : List Endpoint
  deriving DecidableEq

/-- Schema containing known oEmbed providers, from `src/client.rs`. -/
structure Schema where
  providers : List Provider
  deriving DecidableEq

/-- Result of an endpoint search, from `MatchedEndpoint` in
`src/client.rs` (references become values in the embedding). -/
structure MatchedEndpoint where
  provider : Provider
  endpoint : Endpoint
  matched_scheme : String
  deriving DecidableEq

/-- Crate-wide error type, from `Error` in `src/lib.rs`.  The boxed
transport error becomes the type parameter `ε`, and the
`serde_json::Error` diagnostic becomes the parameter `δ`. -/
inductive Error (ε δ : Type) where
  | HttpUrlEncode (e : ε)
  | HttpGet (e : ε)
  | ParseError (e : δ)
  deriving DecidableEq

/-- The `Http` transport trait from `src/client.rs`, an external
capability supplied by the caller: a URL encoder and a GET, both
fallible with an abstract error type `ε`. -/
structure Http (ε : Type) where
  url_encode : String → Except ε String
  get : String → Except ε String

/-- The scan loop of `url_matches_scheme` (`src/client.rs` lines
131-142).  State: the unread url characters, the current scheme
character (`current_scheme_char` in the source, `none` once the scheme
iterator is exhausted), and the unread scheme characters.  Each
iteration pops one url character; on `*` the loop either stays on the
`*` (the `continue` arm) or, when the peeked next scheme character
equals the peeked next url character, advances past it; a literal scheme
character must equal the url character; otherwise the match fails. -/
def matchLoop : List Char → Option Char → List Char → Bool
  | [], _, _ => true
  | _ :: _, none, _ => false
  | u :: us, some c, rest =>
    if c = '*' then
      if rest.head? = us.head? then matchLoop us rest.head? rest.tail
      else matchLoop us (some '*') rest
    else if c = u then matchLoop us rest.head? rest.tail
    else false

/-- `url_matches_scheme` from `src/client.rs` (lines 125-145): the
initial `scheme_chars.next()` makes the scheme's first character
current, and the loop runs over the url's characters. -/
def url_matches_scheme (url scheme : String) : Bool :=
  matchLoop url.toList scheme.toList.head? scheme.toList.tail

/-- On a scheme with no `*`, the scan demands literal equality character
by character, driven by the url: it succeeds exactly when the url is a
prefix (proper or not) of the scheme. -/
theorem matchLoop_no_star (ul : List Char) :
    ∀ pl : List Char, '*' ∉ pl →
      matchLoop ul pl.head? pl.tail = List.isPrefixOf ul pl := by
  induction ul with
  | nil =>
    intro pl _
    cases pl <;> simp [matchLoop, List.isPrefixOf]
  | cons c us ih =>
    intro pl h
    cases pl with
    | nil => simp [matchLoop, List.isPrefixOf]
    | cons d ds =>
      have hd : ¬ d = '*' := fun e => h (e ▸ List.mem_cons_self d ds)
      have hds : '*' ∉ ds := fun e => h (List.mem_cons_of_mem d e)
      by_cases hc : d = c
      · subst hc
        simp [matchLoop, List.isPrefixOf, hd, ih ds hds]
      · have : ¬ c = d := fun e => hc e.symm
        simp [matchLoop, List.isPrefixOf, hd, hc, this]

/-- C1 (counterexample): the claim predicts that a pattern with leftover
unconsumed characters after the url is exhausted fails the match; on the
url `ab` and the pattern `abx` the scan consumes the whole url with the
suffix `x` of the pattern still unread, yet the matcher returns true. -/
theorem c1_counterexample_leftover_pattern_accepts :
    url_matches_scheme "ab" "abx" = true := by decide

/-- C1 (amended): `matches(u,p)` returns true exactly when the scan
consumes the entire url without a mismatch: the loop rejects as soon as a
url character remains while the scheme is exhausted (`current_scheme_char`
is `none`), and it accepts once the url is exhausted, regardless of how
many scheme characters remain unconsumed. -/
theorem c1_amended_url_exhaustion_decides :
    (∀ (u : Char) (us rest : List Char), matchLoop (u :: us) none rest = false) ∧
    (∀ (cur : Option Char) (rest : List Char), matchLoop [] cur rest = true) :=
  ⟨fun _ _ _ => rfl, fun _ _ => rfl⟩

/-- C2 (counterexample): the pattern `xy` contains no `*` and differs from
the url `x`, yet the matcher accepts, because the loop stops as soon as
the url is exhausted; so literal matching is not string equality. -/
theorem c2_counterexample_literal_not_equality :
    ('*' ∉ "xy".toList) ∧ url_matches_scheme "x" "xy" = true ∧ "x" ≠ "xy" := by
  refine ⟨by decide, by decide, by decide⟩

/-- C2 (amended): for a pattern containing no `*`, `matches(u,p)` holds
if and only if the url is a prefix of the pattern (string equality is the
special case of equal lengths). -/
theorem c2_amended_literal_iff_prefix (u p : String) (h : '*' ∉ p.toList) :
    url_matches_scheme u p = List.isPrefixOf u.toList p.toList :=
  matchLoop_no_star u.toList p.toList h

/-- C2 (witness): the amended statement evaluated at the literal pattern
`ab` and the url `a`. -/
theorem c2_amended_literal_iff_prefix_witness :
    ('*' ∉ "ab".toList) ∧
      url_matches_scheme "a" "ab" = List.isPrefixOf "a".toList "ab".toList :=
  ⟨by decide, c2_amended_literal_iff_prefix "a" "ab" (by decide)⟩

/-- C4: one step of the scan at a `*`: the current url character `u` is
consumed in every case; the scan stays on the `*` unless the scheme
character peeked after the `*` equals the url character peeked after `u`,
in which case it moves past the `*` and resumes literal matching at the
next scheme character.  Each step consumes exactly one url character and
never moves the scheme position backwards, so the scan is single-pass
with no backtracking. -/
theorem c4_star_step (u : Char) (us rest : List Char) :
    matchLoop (u :: us) (some '*') rest =
      if rest.head? = us.head? then matchLoop us rest.head? rest.tail
      else matchLoop us (some '*') rest := by
  simp [matchLoop]

/-- `Endpoint::match_url_scheme` from `src/client.rs` (lines 114-122):
when a schemes list is present, the first scheme accepted by
`url_matches_scheme` (the `filter(..).next()` of the source) is
returned. -/
def Endpoint.match_url_scheme (e : Endpoint) (url : String) : Option String :=
  e.schemes.bind fun schemes =>
    (schemes.filter fun s => url_matches_scheme url s).head?

/-- `Schema::match_endpoint` from `src/client.rs` (lines 78-92): the
nested for loops with early return become nested `findSome?`. -/
def Schema.match_endpoint (s : Schema) (url : String) : Option MatchedEndpoint :=
  s.providers.findSome? fun provider =>
    provider.endpoints.findSome? fun endpoint =>
      (endpoint.match_url_scheme url).map fun matched_scheme =>
        ⟨provider, endpoint, matched_scheme⟩

/-- `Endpoint::fetch` from `src/client.rs` (lines 105-112), parameterised
over the external JSON parser `parse` standing for
`serde_json::from_str::<Response>`: encode the url, GET the request url
built from the endpoint url, the literal query prefix and the encoded
url, then parse the body; each step's failure maps to its own `Error`
constructor. -/
def Endpoint.fetch {ε δ : Type} (e : Endpoint) (parse : String → Except δ Response)
    (http : Http ε) (url : String) : Except (Error ε δ) Response :=
  match http.url_encode url with
  | .error err => .error (.HttpUrlEncode err)
  | .ok encoded_url =>
    match http.get (e.url ++ "?format=json&url=" ++ encoded_url) with
    | .error err => .error (.HttpGet err)
    | .ok s =>
      match parse s with
      | .error err => .error (.ParseError err)
      | .ok r => .ok r

/-- `Schema::fetch` from `src/client.rs` (lines 97-100): look up an
endpoint and, when one matches, delegate to `Endpoint.fetch` on the
original url. -/
def Schema.fetch {ε δ : Type} (s : Schema) (parse : String → Except δ Response)
    (http : Http ε) (url : String) : Option (Except (Error ε δ) Response) :=
  (s.match_endpoint url).map fun m => m.endpoint.fetch parse http url

/-- The catalog flattened into (provider, endpoint, scheme) triples in
traversal order, an absent schemes list contributing nothing. -/
def schemaTriples (s : Schema) : List (Provider × Endpoint × String) :=
  s.providers.flatMap fun p =>
    p.endpoints.flatMap fun e =>
      (e.schemes.getD []).map fun sc => (p, e, sc)

/-- C9: the loop is driven solely by url characters and returns true when
the url is exhausted, so the matcher accepts whenever every url character
is consumed without a mismatch, pattern leftovers notwithstanding: the
empty url matches every pattern, and `abc` matches `abcdef`. -/
theorem c9_url_driven_acceptance :
    (∀ scheme : String, url_matches_scheme "" scheme = true) ∧
    url_matches_scheme "abc" "abcdef" = true :=
  ⟨fun _ => rfl, by decide⟩

/-- The head of a filtered list is the first element satisfying the
predicate, so the `filter(..).next()` of the source is a first find. -/
theorem head?_filter_eq_find? {α : Type _} (p : α → Bool) :
    ∀ l : List α, (l.filter p).head? = l.find? p := by
  intro l
  induction l with
  | nil => rfl
  | cons a as ih =>
    cases hpa : p a <;> simp [List.filter_cons, List.find?_cons, hpa, ih]

/-- `match_url_scheme` searches the schemes list (an absent list acting
as the empty list) for the first scheme the matcher accepts. -/
theorem match_url_scheme_eq_find? (e : Endpoint) (url : String) :
    e.match_url_scheme url =
      (e.schemes.getD []).find? fun s => url_matches_scheme url s := by
  cases hs : e.schemes with
  | none => simp [Endpoint.match_url_scheme, hs]
  | some l => simp [Endpoint.match_url_scheme, hs, head?_filter_eq_find?]

/-- A first-some search whose candidate results are all mapped through
`g` is the mapped first-some search. -/
theorem findSome?_map_inner {α β γ : Type _} (f : α → Option β) (g : β → γ) :
    ∀ l : List α, (l.findSome? fun a => (f a).map g) = (l.findSome? f).map g := by
  intro l
  induction l with
  | nil => rfl
  | cons a as ih =>
    cases h : f a <;> simp [List.findSome?_cons, h, ih]

/-- A nested first-find (over each `g a` in turn) is a flat first-find
over the concatenation of the `g a`. -/
theorem findSome?_eq_find?_flatMap {α β : Type _} (g : α → List β) (pred : β → Bool) :
    ∀ l : List α, (l.findSome? fun a => (g a).find? pred) = (l.flatMap g).find? pred := by
  intro l
  induction l with
  | nil => rfl
  | cons a as ih =>
    rw [List.flatMap_cons, List.find?_append, ← ih]
    cases h : (g a).find? pred <;> simp [List.findSome?_cons, h, Option.or]

/-- The search of one provider's endpoints, written as a first-find over
that provider's flattened (provider, endpoint, scheme) triples. -/
theorem provider_search_eq_find? (url : String) (p : Provider) :
    (p.endpoints.findSome? fun endpoint =>
        (endpoint.match_url_scheme url).map fun matched_scheme =>
          (⟨p, endpoint, matched_scheme⟩ : MatchedEndpoint)) =
      ((p.endpoints.flatMap fun e => (e.schemes.getD []).map fun sc => (p, e, sc)).find?
          (fun t => url_matches_scheme url t.2.2)).map
        fun t => MatchedEndpoint.mk t.1 t.2.1 t.2.2 := by
  rw [← findSome?_eq_find?_flatMap
      (fun e => (e.schemes.getD []).map fun sc => (p, e, sc))
      (fun t => url_matches_scheme url t.2.2) p.endpoints]
  rw [← findSome?_map_inner
      (fun e => ((e.schemes.getD []).map fun sc => (p, e, sc)).find?
        fun t => url_matches_scheme url t.2.2)
      (fun t => MatchedEndpoint.mk t.1 t.2.1 t.2.2) p.endpoints]
  congr 1
  funext e
  rw [match_url_scheme_eq_find?, List.find?_map, Option.map_map]
  rfl

/-- C5: endpoint lookup is the first match of the catalog traversed in
order — providers in catalog order, endpoints in declared order, schemes
in declared order, an absent schemes list acting as empty — returning
the first (provider, endpoint, scheme) triple whose scheme the matcher
accepts; in particular a provider that matches shadows every provider
after it. -/
theorem c5_match_endpoint_first_in_order :
    (∀ (e : Endpoint) (url : String),
        e.match_url_scheme url =
          (e.schemes.getD []).find? fun s => url_matches_scheme url s) ∧
    (∀ (s : Schema) (url : String),
        s.match_endpoint url =
          ((schemaTriples s).find? fun t => url_matches_scheme url t.2.2).map
            fun t => MatchedEndpoint.mk t.1 t.2.1 t.2.2) ∧
    (∀ (p q : Provider) (url : String) (m : MatchedEndpoint),
        Schema.match_endpoint ⟨[p]⟩ url = some m →
        Schema.match_endpoint ⟨[p, q]⟩ url = some m) := by
  refine ⟨match_url_scheme_eq_find?, ?_, ?_⟩
  · intro s url
    show (s.providers.findSome? fun provider => _) = _
    unfold schemaTriples
    rw [← findSome?_eq_find?_flatMap
        (fun p => p.endpoints.flatMap fun e => (e.schemes.getD []).map fun sc => (p, e, sc))
        (fun t => url_matches_scheme url t.2.2) s.providers]
    rw [← findSome?_map_inner
        (fun p => (p.endpoints.flatMap fun e =>
            (e.schemes.getD []).map fun sc => (p, e, sc)).find?
          fun t => url_matches_scheme url t.2.2)
        (fun t => MatchedEndpoint.mk t.1 t.2.1 t.2.2) s.providers]
    congr 1
    funext p
    exact provider_search_eq_find? url p
  · intro p q url m h
    unfold Schema.match_endpoint at h ⊢
    simp only [List.findSome?_cons, List.findSome?_nil] at h ⊢
    cases hp : (p.endpoints.findSome? fun endpoint =>
        (endpoint.match_url_scheme url).map fun matched_scheme =>
          (⟨p, endpoint, matched_scheme⟩ : MatchedEndpoint)) with
    | none => rw [hp] at h; simp at h
    | some v => rw [hp] at h; exact h

/-- Sample endpoint used by concrete witnesses. -/
def endpointA : Endpoint :=
  ⟨"https://a.example/oembed", some ["https://a.example/*"], none, none⟩

/-- Sample provider owning `endpointA`. -/
def providerA : Provider := ⟨"A", "https://a.example", [endpointA]⟩

/-- Sample endpoint whose scheme also matches urls under `a.example`. -/
def endpointB : Endpoint := ⟨"https://b.example/oembed", some ["https://*"], none, none⟩

/-- Sample provider owning `endpointB`. -/
def providerB : Provider := ⟨"B", "https://b.example", [endpointB]⟩

/-- The lookup result for `providerA` on the sample url. -/
def matchedA : MatchedEndpoint := ⟨providerA, endpointA, "https://a.example/*"⟩

/-- C5 (witness): both sample providers match the url, and the catalog
listing `providerA` first resolves to `providerA`'s endpoint. -/
theorem c5_match_endpoint_first_in_order_witness :
    Schema.match_endpoint ⟨[providerA]⟩ "https://a.example/x" = some matchedA ∧
    url_matches_scheme "https://a.example/x" "https://*" = true ∧
    Schema.match_endpoint ⟨[providerA, providerB]⟩ "https://a.example/x" = some matchedA :=
  ⟨by decide, by decide,
    c5_match_endpoint_first_in_order.2.2 providerA providerB "https://a.example/x" matchedA
      (by decide)⟩

/-- C6: the top-level fetch is absent exactly when endpoint lookup finds
nothing, and otherwise wraps the matched endpoint's fetch result — a
success or an error — unchanged. -/
theorem c6_schema_fetch_option {ε δ : Type} (parse : String → Except δ Response)
    (s : Schema) (http : Http ε) (url : String) :
    (s.fetch parse http url = none ↔ s.match_endpoint url = none) ∧
    (∀ m, s.match_endpoint url = some m →
        s.fetch parse http url = some (m.endpoint.fetch parse http url)) := by
  constructor
  · unfold Schema.fetch
    cases h : s.match_endpoint url <;> simp [h]
  · intro m hm
    unfold Schema.fetch
    rw [hm]
    rfl

/-- A stub external parser that always fails, standing in for
`serde_json::from_str` in concrete witnesses. -/
def parseStub : String → Except String Response := fun _ => Except.error "stub diagnostic"

/-- A stub transport whose encoder is the identity and whose GET always
returns the same body. -/
def httpStub : Http String := ⟨fun s => Except.ok s, fun _ => Except.ok "response body"⟩

/-- C6 (witness): on the one-provider catalog the fetch wraps the matched
endpoint's fetch; on the empty catalog it is absent. -/
theorem c6_schema_fetch_option_witness :
    Schema.match_endpoint ⟨[providerA]⟩ "https://a.example/x" = some matchedA ∧
    Schema.fetch ⟨[providerA]⟩ parseStub httpStub "https://a.example/x" =
      some (endpointA.fetch parseStub httpStub "https://a.example/x") ∧
    Schema.fetch ⟨[]⟩ parseStub httpStub "https://a.example/x" = none :=
  ⟨by decide,
    (c6_schema_fetch_option parseStub ⟨[providerA]⟩ httpStub "https://a.example/x").2
      matchedA (by decide),
    (c6_schema_fetch_option parseStub ⟨[]⟩ httpStub "https://a.example/x").1.mpr rfl⟩

/-- C7: the endpoint fetch pipeline: the url is encoded first, the GET is
issued on exactly the request url built from the endpoint url, the
literal `?format=json&url=` and the once-encoded url embedded verbatim,
then the body is parsed; an encode failure becomes `HttpUrlEncode`, a GET
failure becomes `HttpGet`, a parse failure becomes `ParseError` carrying
the parser's diagnostic unchanged, and a parsed body is returned as-is —
no step is retried. -/
theorem c7_endpoint_fetch_pipeline {ε δ : Type} (e : Endpoint)
    (parse : String → Except δ Response) (http : Http ε) (url : String) :
    (∀ err, http.url_encode url = .error err →
        e.fetch parse http url = .error (.HttpUrlEncode err)) ∧
    (∀ enc err, http.url_encode url = .ok enc →
        http.get (e.url ++ "?format=json&url=" ++ enc) = .error err →
        e.fetch parse http url = .error (.HttpGet err)) ∧
    (∀ enc body d, http.url_encode url = .ok enc →
        http.get (e.url ++ "?format=json&url=" ++ enc) = .ok body →
        parse body = .error d →
        e.fetch parse http url = .error (.ParseError d)) ∧
    (∀ enc body r, http.url_encode url = .ok enc →
        http.get (e.url ++ "?format=json&url=" ++ enc) = .ok body →
        parse body = .ok r →
        e.fetch parse http url = .ok r) := by
  refine ⟨?_, ?_, ?_, ?_⟩ <;> intros <;> simp_all [Endpoint.fetch]

/-- C7 (witness): the pipeline evaluated with the stub transport and the
always-failing stub parser classifies the failure as a parse error and
preserves the stub diagnostic. -/
theorem c7_endpoint_fetch_pipeline_witness :
    httpStub.url_encode "https://w.example/v" = Except.ok "https://w.example/v" ∧
    httpStub.get "https://w.example/oembed?format=json&url=https://w.example/v" =
      Except.ok "response body" ∧
    parseStub "response body" = Except.error "stub diagnostic" ∧
    Endpoint.fetch ⟨"https://w.example/oembed", none, none, none⟩ parseStub httpStub
        "https://w.example/v" =
      Except.error (Error.ParseError "stub diagnostic") :=
  ⟨rfl, rfl, rfl,
    (c7_endpoint_fetch_pipeline ⟨"https://w.example/oembed", none, none, none⟩ parseStub
        httpStub "https://w.example/v").2.2.1
      "https://w.example/v" "response body" "stub diagnostic" rfl rfl rfl⟩

/-- C10: `Endpoint.fetch` reads only the endpoint's url: two endpoints
differing arbitrarily in schemes (absent included), formats and
discovery produce identical fetch behaviour for every transport, parser
and url, so no scheme check happens inside the fetch itself. -/
theorem c10_endpoint_fetch_ignores_match_fields {ε δ : Type}
    (parse : String → Except δ Response) (http : Http ε) (url u : String)
    (s₁ s₂ f₁ f₂ : Option (List String)) (d₁ d₂ : Option Bool) :
    Endpoint.fetch ⟨u, s₁, f₁, d₁⟩ parse http url =
      Endpoint.fetch ⟨u, s₂, f₂, d₂⟩ parse http url := rfl

/-- JSON values, the wire format of serde_json; numbers are restricted
to the integers, which covers every numeric field of `Response`. -/
inductive Json where
  | null
  | bool (b : Bool)
  | num (n : Int)
  | str (s : String)
  | arr (elems : List Json)
  | obj (fields : List (String × Json))

/-- An optional string serialised the serde way: `None` becomes `null`
(the source derives `Serialize` with no `skip_serializing_if`). -/
def optStrJson : Option String → Json
  | none => .null
  | some s => .str s

/-- An optional integer serialised the serde way. -/
def optIntJson : Option Int → Json
  | none => .null
  | some n => .num n

/-- Serialisation of `ResponseType` per its derive attributes in
`src/lib.rs`: `tag = "type"` makes it internally tagged, and
`rename_all(deserialize = "lowercase")` scopes the lowercase renaming to
deserialisation only, so the serialised tag keeps each variant's
capitalised source name. -/
def serializeResponseType : ResponseType → List (String × Json)
  | .Photo u w h =>
    [("type", .str "Photo"), ("url", .str u),
     ("width", optIntJson w), ("height", optIntJson h)]
  | .Video ht w h =>
    [("type", .str "Video"), ("html", .str ht),
     ("width", optIntJson w), ("height", optIntJson h)]
  | .Rich ht w h =>
    [("type", .str "Rich"), ("html", .str ht),
     ("width", optIntJson w), ("height", optIntJson h)]
  | .Link => [("type", .str "Link")]

/-- The serialised fields of a `Response`: the flattened tagged union
first (the field is declared first in the struct), then the shared
fields in declaration order. -/
def serializeResponseFields (r : Response) : List (String × Json) :=
  serializeResponseType r.response_type ++
    [("version", .str r.version),
     ("title", optStrJson r.title),
     ("author_name", optStrJson r.author_name),
     ("author_url", optStrJson r.author_url),
     ("provider_name", optStrJson r.provider_name),
     ("provider_url", optStrJson r.provider_url),
     ("cache_age", optStrJson r.cache_age),
     ("thumbnail_url", optStrJson r.thumbnail_url),
     ("thumbnail_width", optIntJson r.thumbnail_width),
     ("thumbnail_height", optIntJson r.thumbnail_height)]

/-- Serialisation of `Response` per its serde derives. -/
def serializeResponse (r : Response) : Json :=
  .obj (serializeResponseFields r)

/-- Read a required string field: absent or non-string values are
deserialisation errors. -/
def reqStr (fields : List (String × Json)) (k : String) : Except String String :=
  match fields.lookup k with
  | some (.str s) => .ok s
  | some _ => .error ("invalid value for field " ++ k)
  | none => .error ("missing field " ++ k)

/-- Read an optional string field: absent or `null` is `None`, any other
non-string value is a deserialisation error. -/
def optStr (fields : List (String × Json)) (k : String) : Except String (Option String) :=
  match fields.lookup k with
  | none => .ok none
  | some .null => .ok none
  | some (.str s) => .ok (some s)
  | some _ => .error ("invalid value for field " ++ k)

/-- Read an optional integer field. -/
def optInt (fields : List (String × Json)) (k : String) : Except String (Option Int) :=
  match fields.lookup k with
  | none => .ok none
  | some .null => .ok none
  | some (.num n) => .ok (some n)
  | some _ => .error ("invalid value for field " ++ k)

/-- Deserialisation of the internally tagged `ResponseType` per its
derive attributes: the discriminant is the `type` field and, with
`rename_all(deserialize = "lowercase")`, the accepted tag values are
exactly the four lower-case variant names; anything else — a missing
tag, a non-string tag, or an unknown string — is an error. -/
def deserializeResponseType (fields : List (String × Json)) : Except String ResponseType :=
  match fields.lookup "type" with
  | some (.str t) =>
    if t = "photo" then do
      let u ← reqStr fields "url"
      let w ← optInt fields "width"
      let h ← optInt fields "height"
      return .Photo u w h
    else if t = "video" then do
      let ht ← reqStr fields "html"
      let w ← optInt fields "width"
      let h ← optInt fields "height"
      return .Video ht w h
    else if t = "rich" then do
      let ht ← reqStr fields "html"
      let w ← optInt fields "width"
      let h ← optInt fields "height"
      return .Rich ht w h
    else if t = "link" then .ok .Link
    else .error ("unknown variant " ++ t)
  | some _ => .error "invalid type tag"
  | none => .error "missing field type"

/-- Deserialisation of `Response` per its serde derives: the body must
be a JSON object; the flattened tagged union is resolved from the
object's fields (declared first in the struct), `version` is required,
every other shared field is optional, and unknown extra fields are
ignored. -/
def deserializeResponse : Json → Except String Response
  | .obj fields => do
    let rt ← deserializeResponseType fields
    let version ← reqStr fields "version"
    let title ← optStr fields "title"
    let author_name ← optStr fields "author_name"
    let author_url ← optStr fields "author_url"
    let provider_name ← optStr fields "provider_name"
    let provider_url ← optStr fields "provider_url"
    let cache_age ← optStr fields "cache_age"
    let thumbnail_url ← optStr fields "thumbnail_url"
    let thumbnail_width ← optInt fields "thumbnail_width"
    let thumbnail_height ← optInt fields "thumbnail_height"
    return ⟨rt, version, title, author_name, author_url, provider_name,
      provider_url, cache_age, thumbnail_url, thumbnail_width, thumbnail_height⟩
  | _ => .error "expected a JSON object"

/-- Whether an optional JSON value is one of the four lower-case tag
strings the deserialiser dispatches on. -/
def knownTag : Option Json → Bool
  | some (.str t) => t == "photo" || t == "video" || t == "rich" || t == "link"
  | _ => false

/-- When the `type` field is absent, not a string, or an unknown string,
the tagged-union deserialiser fails. -/
theorem deserializeResponseType_error_of_unknown (fields : List (String × Json))
    (h : knownTag (fields.lookup "type") = false) :
    ∃ msg, deserializeResponseType fields = Except.error msg := by
  unfold deserializeResponseType
  cases ht : fields.lookup "type" with
  | none => exact ⟨_, rfl⟩
  | some v =>
    cases v with
    | null => exact ⟨_, rfl⟩
    | bool b => exact ⟨_, rfl⟩
    | num n => exact ⟨_, rfl⟩
    | arr elems => exact ⟨_, rfl⟩
    | obj fs => exact ⟨_, rfl⟩
    | str t =>
      rw [ht] at h
      simp only [knownTag, Bool.or_eq_false_iff, beq_eq_false_iff_ne, ne_eq] at h
      obtain ⟨⟨⟨h1, h2⟩, h3⟩, h4⟩ := h
      simp only [h1, h2, h3, h4, if_false, ite_false]
      exact ⟨_, rfl⟩

/-- A minimal concrete `Response`: the `Link` variant, version `1.0`,
every optional field absent. -/
def linkSample : Response :=
  ⟨.Link, "1.0", none, none, none, none, none, none, none, none, none⟩

/-- C3 (the code contradicts the round-trip property): serialisation
writes the tag with the variant's capitalised name — the lowercase
renaming in the source is scoped to deserialisation — while the
deserialiser accepts only the four lower-case tags, so deserialising the
serialiser's output fails for every `Response`; evaluated concretely,
the serialised `Link` sample comes back as an unknown-variant error. -/
theorem c3_roundtrip_always_fails :
    (∀ r : Response, (deserializeResponse (serializeResponse r)).isOk = false) ∧
    deserializeResponse (serializeResponse linkSample) =
      Except.error "unknown variant Link" := by
  constructor
  · intro r
    obtain ⟨rt, ver, t₁, t₂, t₃, t₄, t₅, t₆, t₇, t₈, t₉⟩ := r
    obtain ⟨msg, hmsg⟩ := deserializeResponseType_error_of_unknown
      (serializeResponseFields ⟨rt, ver, t₁, t₂, t₃, t₄, t₅, t₆, t₇, t₈, t₉⟩)
      (by cases rt <;> rfl)
    simp only [serializeResponse, deserializeResponse]
    rw [hmsg]
    rfl
  · rfl

/-- C8: a response object whose `type` field is absent, not a string, or
a string other than the four lower-case tags `photo`, `video`, `rich`,
`link` never deserialises successfully. -/
theorem c8_unknown_type_tag_rejected (fields : List (String × Json))
    (h : knownTag (fields.lookup "type") = false) :
    (deserializeResponse (Json.obj fields)).isOk = false := by
  obtain ⟨msg, hmsg⟩ := deserializeResponseType_error_of_unknown fields h
  simp only [deserializeResponse]
  rw [hmsg]
  rfl

/-- C8 (witness): a body with the unrecognised tag `article` fails to
parse. -/
theorem c8_unknown_type_tag_rejected_witness :
    knownTag ([("type", Json.str "article"), ("version", Json.str "1.0")].lookup "type") =
      false ∧
    (deserializeResponse
        (Json.obj [("type", Json.str "article"), ("version", Json.str "1.0")])).isOk =
      false :=
  ⟨by decide,
    c8_unknown_type_tag_rejected [("type", Json.str "article"), ("version", Json.str "1.0")]
      (by decide)⟩

end Oembed
